import Mathlib

/-!
Shallow embedding of the bike-sharing dashboard script
(`Submission/dashboard/dashboard.py`): code-mapping tables, the
`load_data` loader (date parsing plus label enrichment), the boolean-mask
row filter, the empty-result / date-selection control flow of the script,
and the groupby-mean aggregations feeding the charts.  Tables are lists of
rows; a pandas label lookup that can produce a missing value is an
`Option String`; a loading step that can raise is an `Except`.
-/

namespace Dashboard

/-- Calendar date, compared lexicographically (year, month, day), standing
for the `datetime.date` values the script compares with `>=` and `<=`. -/
structure Date where
  year : Nat
  month : Nat
  day : Nat
deriving DecidableEq, Repr

/-- Date order `a <= b` on calendar dates, as the script's date comparisons behave. -/
def Date.le (a b : Date) : Bool :=
  Nat.blt a.year b.year ||
    (Nat.beq a.year b.year &&
      (Nat.blt a.month b.month ||
        (Nat.beq a.month b.month && Nat.ble a.day b.day)))

/-- Table `month_map`: month number (1-12) to English month name; any other code
is a missing label, as `Series.map` on a dict yields NaN. -/
def month_map (m : Nat) : Option String :=
  match m with
  | 1 => some "January" | 2 => some "February" | 3 => some "March"
  | 4 => some "April" | 5 => some "May" | 6 => some "June"
  | 7 => some "July" | 8 => some "August" | 9 => some "September"
  | 10 => some "October" | 11 => some "November" | 12 => some "December"
  | _ => none

/-- Table `weather_map`: weather code (1-4) to severity label. -/
def weather_map (c : Nat) : Option String :=
  match c with
  | 1 => some "Clear/Partly Cloudy"
  | 2 => some "Mist/Cloudy"
  | 3 => some "Light Rain/Snow/Thunderstorm"
  | 4 => some "Heavy Rain/Snow/Fog"
  | _ => none

/-- The inline season dict of `load_data`:
`{1: 'Spring', 2: 'Summer', 3: 'Fall', 4: 'Winter'}`. -/
def season_code_map (c : Nat) : Option String :=
  match c with
  | 1 => some "Spring" | 2 => some "Summer" | 3 => some "Fall"
  | 4 => some "Winter" | _ => none

/-- The `season_order` list of the script. -/
def season_order : List String := ["Spring", "Summer", "Fall", "Winter"]

/-- The sidebar's `season_mapping`: calendar month to season name
(12, 1, 2 are Winter; 3-5 Spring; 6-8 Summer; 9-11 Fall). -/
def season_mapping (m : Nat) : Option String :=
  match m with
  | 12 => some "Winter" | 1 => some "Winter" | 2 => some "Winter"
  | 3 => some "Spring" | 4 => some "Spring" | 5 => some "Spring"
  | 6 => some "Summer" | 7 => some "Summer" | 8 => some "Summer"
  | 9 => some "Fall" | 10 => some "Fall" | 11 => some "Fall"
  | _ => none

/-- One raw CSV row of `cleaned-day.csv` / `cleaned-hour.csv` before
enrichment: the `dteday` cell is still text, codes are integer columns,
environmental readings are the normalized rationals; daily rows carry an
unused hour field fixed at 0. -/
structure RawRow where
  dteday : String
  season : Nat
  weathersit : Nat
  mnth : Nat
  hr : Nat
  temp : Rat
  atemp : Rat
  hum : Rat
  windspeed : Rat
  casual : Nat
  registered : Nat
  cnt : Nat
deriving DecidableEq, Repr

/-- Row after `load_data`'s enrichment loop: `dteday` parsed to a date,
`season` overwritten by its label, new `weather` and `month` label columns,
all other columns carried over. -/
structure ERow where
  dteday : Date
  season : Option String
  weathersit : Nat
  weather : Option String
  mnth : Nat
  month : Option String
  hr : Nat
  temp : Rat
  atemp : Rat
  hum : Rat
  windspeed : Rat
  casual : Nat
  registered : Nat
  cnt : Nat
deriving DecidableEq, Repr

/-- Read a decimal numeral from characters, failing on a non-digit. -/
def parseNatAux : List Char → Nat → Option Nat
  | [], acc => some acc
  | c :: cs, acc =>
    if c.isDigit then parseNatAux cs (acc * 10 + (c.toNat - 48)) else none

/-- Decimal numeral parser on a character list; empty input fails. -/
def parseNat (cs : List Char) : Option Nat :=
  match cs with
  | [] => none
  | _ => parseNatAux cs 0

/-- Split a character list on the dash character. -/
def splitOnDash : List Char → List (List Char)
  | [] => [[]]
  | c :: rest =>
    let r := splitOnDash rest
    if c = '-' then [] :: r
    else
      match r with
      | [] => [[c]]
      | g :: gs => (c :: g) :: gs

/-- Behavior of `pd.to_datetime` on one `dteday` cell: accepts `YYYY-MM-DD` with a
month 1-12 and a day 1-31, fails otherwise (an unparseable date raises,
which the loader's `except` turns into the failure path). -/
def parseDate (s : String) : Option Date :=
  match (splitOnDash s.toList).map parseNat with
  | [some y, some m, some d] =>
    if 1 ≤ m ∧ m ≤ 12 ∧ 1 ≤ d ∧ d ≤ 31 then some ⟨y, m, d⟩ else none
  | _ => none

/-- Enrich one row: parse its date and attach the three label columns,
keeping every other column unchanged. -/
def enrichRow (r : RawRow) : Option ERow :=
  (parseDate r.dteday).map (fun d =>
    { dteday := d
      season := season_code_map r.season
      weathersit := r.weathersit
      weather := weather_map r.weathersit
      mnth := r.mnth
      month := month_map r.mnth
      hr := r.hr
      temp := r.temp
      atemp := r.atemp
      hum := r.hum
      windspeed := r.windspeed
      casual := r.casual
      registered := r.registered
      cnt := r.cnt })

/-- The enrichment loop over one table: any unparseable date raises, so
the whole table fails. -/
def enrichTable (rs : List RawRow) : Except String (List ERow) :=
  match rs.mapM enrichRow with
  | some es => Except.ok es
  | none => Except.error "date parse failed"

/-- The loader `load_data`: read both sources, enrich both tables; any exception is
caught, an error message is shown (third component), and the sentinel pair
`(None, None)` is returned.  The two `Except` arguments stand for the two
`read_csv` calls, which raise on an unreadable file or a missing column. -/
def load_data (dayRaw hourRaw : Except String (List RawRow)) :
    Option (List ERow) × Option (List ERow) × Option String :=
  match dayRaw with
  | Except.error e => (none, none, some ("Error loading data: " ++ e))
  | Except.ok d =>
    match hourRaw with
    | Except.error e => (none, none, some ("Error loading data: " ++ e))
    | Except.ok h =>
      match enrichTable d with
      | Except.error e => (none, none, some ("Error loading data: " ++ e))
      | Except.ok de =>
        match enrichTable h with
        | Except.error e => (none, none, some ("Error loading data: " ++ e))
        | Except.ok he => (some de, some he, none)

/-- Membership test `Series.isin` on a label column that may hold missing values: a
missing label is never in the accepted list. -/
def optIn (o : Option String) (xs : List String) : Bool :=
  match o with
  | some s => xs.contains s
  | none => false

/-- The `filtered_day` boolean mask: keep the rows whose date is within
`[s, e]` and whose season and weather labels are in the selected lists. -/
def filtered_day (T : List ERow) (s e : Date)
    (selected_seasons selected_weather : List String) : List ERow :=
  T.filter (fun r =>
    Date.le s r.dteday && Date.le r.dteday e &&
      optIn r.season selected_seasons && optIn r.weather selected_weather)

/-- The `filtered_hour` mask, identical in shape to `filtered_day`. -/
def filtered_hour (T : List ERow) (s e : Date)
    (selected_seasons selected_weather : List String) : List ERow :=
  T.filter (fun r =>
    Date.le s r.dteday && Date.le r.dteday e &&
      optIn r.season selected_seasons && optIn r.weather selected_weather)

/-- Terminal states of one pass of the script. -/
inductive Outcome where
  | loadError (msg : String)
  | invalidRange
  | noMatchingData
  | rendered (fd fh : List ERow)
deriving DecidableEq, Repr

/-- The script's top-level control flow for one interaction: stop if the
load failed; stop with a date error unless the picker returned exactly two
bounds; filter both tables; stop with the no-matching-data warning if
either filtered table is empty; otherwise render both filtered tables. -/
def session (dayRaw hourRaw : Except String (List RawRow))
    (selected_dates : List Date)
    (selected_seasons selected_weather : List String) : Outcome :=
  match load_data dayRaw hourRaw with
  | (some day_df, some hour_df, _) =>
    match selected_dates with
    | [s, e] =>
      let fd := filtered_day day_df s e selected_seasons selected_weather
      let fh := filtered_hour hour_df s e selected_seasons selected_weather
      if fd.isEmpty || fh.isEmpty then Outcome.noMatchingData
      else Outcome.rendered fd fh
    | _ => Outcome.invalidRange
  | (_, _, msg) => Outcome.loadError (msg.getD "")

/-- Aggregation `groupby(key)[target].mean()`: one entry per distinct key occurring in
the table, carrying the arithmetic mean of the target over that key's
rows. -/
def groupMeanBy {α : Type} [DecidableEq α] (key : ERow → α)
    (target : ERow → Rat) (T : List ERow) : List (α × Rat) :=
  ((T.map key).dedup).map (fun k =>
    let vals := (T.filter (fun r => decide (key r = k))).map target
    (k, vals.sum / (vals.length : Rat)))

/-- The series `monthly = filtered_day.groupby('month')['cnt'].mean()`. -/
def monthly (fd : List ERow) : List (Option String × Rat) :=
  groupMeanBy (fun r => r.month) (fun r => (r.cnt : Rat)) fd

/-- The series `hourly = filtered_hour.groupby('hr')['cnt'].mean()`. -/
def hourly (fh : List ERow) : List (Nat × Rat) :=
  groupMeanBy (fun r => r.hr) (fun r => (r.cnt : Rat)) fh

/-- The spec's row-by-row reference predicate for the filter: the date
falls within `[s, e]` inclusively, and the season and weather labels are
members of the accepted sets. -/
def RowMatches (r : ERow) (s e : Date) (S W : List String) : Prop :=
  Date.le s r.dteday = true ∧ Date.le r.dteday e = true ∧
    (∃ x ∈ S, r.season = some x) ∧ (∃ y ∈ W, r.weather = some y)

/-- The daily row of the spec's loader scenario: dated 2011-01-01, season
code 1, weather code 1, casual 10, registered 50, total 60. -/
def rawEx : RawRow :=
  { dteday := "2011-01-01", season := 1, weathersit := 1, mnth := 1, hr := 0,
    temp := 0, atemp := 0, hum := 0, windspeed := 0,
    casual := 10, registered := 50, cnt := 60 }

/-- The row `rawEx` after enrichment. -/
def eRowEx : ERow :=
  { dteday := ⟨2011, 1, 1⟩, season := some "Spring", weathersit := 1,
    weather := some "Clear/Partly Cloudy", mnth := 1, month := some "January",
    hr := 0, temp := 0, atemp := 0, hum := 0, windspeed := 0,
    casual := 10, registered := 50, cnt := 60 }

/-- An enriched hourly row at hour `h` with total count `c`, for the
group-mean scenario. -/
def hRow (h c : Nat) : ERow :=
  { dteday := ⟨2011, 1, 1⟩, season := some "Spring", weathersit := 1,
    weather := some "Clear/Partly Cloudy", mnth := 1, month := some "January",
    hr := h, temp := 0, atemp := 0, hum := 0, windspeed := 0,
    casual := 0, registered := c, cnt := c }

theorem optIn_eq_true_iff (o : Option String) (xs : List String) :
    optIn o xs = true ↔ ∃ x ∈ xs, o = some x := by
  cases o with
  | none => simp [optIn]
  | some s => simp [optIn, List.elem_iff, eq_comm]

theorem optIn_nil (o : Option String) : optIn o [] = false := by
  cases o <;> simp [optIn]

/-- Claim C1: the filter returns exactly the rows of `T` whose date lies in
`[s, e]` (inclusive) and whose season and weather labels are in the
accepted sets, in their original order (it is a sublist of `T`), and an
empty accepted season or weather set gives an empty result. -/
theorem filtered_day_correct (T : List ERow) (s e : Date) (S W : List String) :
    (filtered_day T s e S W).Sublist T ∧
    (∀ r, r ∈ filtered_day T s e S W ↔ r ∈ T ∧ RowMatches r s e S W) ∧
    (S = [] → filtered_day T s e S W = []) ∧
    (W = [] → filtered_day T s e S W = []) := by
  refine ⟨List.filter_sublist T, fun r => ?_, fun hS => ?_, fun hW => ?_⟩
  · simp [filtered_day, List.mem_filter, RowMatches, optIn_eq_true_iff,
      and_assoc]
  · subst hS
    simp [filtered_day, optIn_nil]
  · subst hW
    simp [filtered_day, optIn_nil]

/-- Witness for C1 at a concrete table: the single enriched row dated
2011-01-01 is kept by a filter whose bounds and label sets accept it. -/
theorem filtered_day_correct_witness :
    eRowEx ∈ filtered_day [eRowEx] ⟨2011, 1, 1⟩ ⟨2011, 1, 2⟩
      ["Spring"] ["Clear/Partly Cloudy"] :=
  ((filtered_day_correct [eRowEx] ⟨2011, 1, 1⟩ ⟨2011, 1, 2⟩
      ["Spring"] ["Clear/Partly Cloudy"]).2.1 eRowEx).2
    ⟨by decide, by decide, by decide, ⟨"Spring", by decide, by decide⟩,
      ⟨"Clear/Partly Cloudy", by decide, by decide⟩⟩

/-- Claim C8: filtering an already-filtered table with the same bounds
returns the same table (idempotence), for valid bounds with start ≤ end. -/
theorem filtered_day_idem (T : List ERow) (s e : Date) (S W : List String)
    (h : Date.le s e = true) :
    filtered_day (filtered_day T s e S W) s e S W = filtered_day T s e S W := by
  simp only [filtered_day, List.filter_filter, Bool.and_self]

/-- Witness for C8 on a concrete table and valid bounds. -/
theorem filtered_day_idem_witness :
    filtered_day (filtered_day [eRowEx] ⟨2011, 1, 1⟩ ⟨2011, 1, 2⟩
        ["Spring"] ["Clear/Partly Cloudy"]) ⟨2011, 1, 1⟩ ⟨2011, 1, 2⟩
      ["Spring"] ["Clear/Partly Cloudy"] =
      filtered_day [eRowEx] ⟨2011, 1, 1⟩ ⟨2011, 1, 2⟩
        ["Spring"] ["Clear/Partly Cloudy"] :=
  filtered_day_idem [eRowEx] ⟨2011, 1, 1⟩ ⟨2011, 1, 2⟩
    ["Spring"] ["Clear/Partly Cloudy"] (by decide)

/-- Claim C5: the loader's code-based season mapping and the sidebar's
month-based season mapping disagree: code 1 is labelled Spring by the
loader while January is labelled Winter by the sidebar, so the record
dated 2011-01-01 with season code 1 gets different season labels from the
two mappings. -/
theorem season_mappings_disagree :
    season_code_map 1 = some "Spring" ∧ season_mapping 1 = some "Winter" ∧
    season_code_map 1 ≠ season_mapping 1 ∧
    (∃ er, enrichRow rawEx = some er ∧ er.season = some "Spring" ∧
      season_mapping er.dteday.month = some "Winter" ∧
      er.season ≠ season_mapping er.dteday.month) :=
  ⟨rfl, rfl, by decide, eRowEx, by decide, rfl, rfl, by decide⟩

/-- Claim C6: enrichment carries the casual, registered, and total count
columns over unchanged, so any row satisfying casual + registered = total
still satisfies it after loading. -/
theorem loader_preserves_counts (r : RawRow) (er : ERow)
    (hsum : r.casual + r.registered = r.cnt)
    (henr : enrichRow r = some er) :
    er.casual + er.registered = er.cnt ∧ er.casual = r.casual ∧
    er.registered = r.registered ∧ er.cnt = r.cnt := by
  unfold enrichRow at henr
  cases hp : parseDate r.dteday with
  | none => rw [hp] at henr; simp at henr
  | some d =>
    rw [hp, Option.map_some'] at henr
    injection henr with h
    subst h
    exact ⟨hsum, rfl, rfl, rfl⟩

/-- Witness for C6 on the concrete scenario row (10 + 50 = 60). -/
theorem loader_preserves_counts_witness :
    eRowEx.casual + eRowEx.registered = eRowEx.cnt ∧
    eRowEx.casual = rawEx.casual ∧ eRowEx.registered = rawEx.registered ∧
    eRowEx.cnt = rawEx.cnt :=
  loader_preserves_counts rawEx eRowEx (by decide) (by decide)

/-- Claim C2: on a row whose date parses, enrichment yields exactly one
output row whose date is the parsed date, whose month, season, and weather
labels come from the fixed mapping tables applied to the integer codes,
and whose every other column is unchanged. -/
theorem load_enrich_spec (r : RawRow) (d : Date)
    (hparse : parseDate r.dteday = some d) :
    ∃ er, enrichRow r = some er ∧
      er.dteday = d ∧
      er.month = month_map r.mnth ∧
      er.season = season_code_map r.season ∧
      er.weather = weather_map r.weathersit ∧
      er.weathersit = r.weathersit ∧ er.mnth = r.mnth ∧ er.hr = r.hr ∧
      er.temp = r.temp ∧ er.atemp = r.atemp ∧ er.hum = r.hum ∧
      er.windspeed = r.windspeed ∧ er.casual = r.casual ∧
      er.registered = r.registered ∧ er.cnt = r.cnt := by
  unfold enrichRow
  rw [hparse, Option.map_some']
  exact ⟨_, rfl, rfl, rfl, rfl, rfl, rfl, rfl, rfl, rfl, rfl, rfl, rfl,
    rfl, rfl, rfl⟩

/-- Witness for C2 on the scenario row dated 2011-01-01 with month number
1, season code 1, weather code 1: the month label is January and the
season and weather labels are the ones the mapping tables assign to code
1 (Spring and Clear/Partly Cloudy). -/
theorem load_enrich_spec_witness :
    ∃ er, enrichRow rawEx = some er ∧ er.dteday = ⟨2011, 1, 1⟩ ∧
      er.month = some "January" ∧ er.season = some "Spring" ∧
      er.weather = some "Clear/Partly Cloudy" ∧
      er.casual = 10 ∧ er.registered = 50 ∧ er.cnt = 60 := by
  obtain ⟨er, h0, h1, h2, h3, h4, _, h6, _, _, _, _, _, h12, h13, h14⟩ :=
    load_enrich_spec rawEx ⟨2011, 1, 1⟩ (by decide)
  exact ⟨er, h0, h1, by rw [h2]; rfl, by rw [h3]; rfl, by rw [h4]; rfl,
    by rw [h12]; rfl, by rw [h13]; rfl, by rw [h14]; rfl⟩

/-- Claim C3: the loader either fails outright, showing a diagnostic
message and returning the sentinel pair (None, None) — never a partial
dataset — or succeeds with both tables; and when it fails the session
stops in the load-error terminal state. -/
theorem load_data_all_or_nothing (dayRaw hourRaw : Except String (List RawRow)) :
    ((∃ msg, load_data dayRaw hourRaw = (none, none, some msg)) ∨
      (∃ de he, load_data dayRaw hourRaw = (some de, some he, none))) ∧
    (∀ sd S W msg, load_data dayRaw hourRaw = (none, none, some msg) →
      session dayRaw hourRaw sd S W = Outcome.loadError msg) := by
  constructor
  · cases dayRaw with
    | error e => exact Or.inl ⟨_, rfl⟩
    | ok d =>
      cases hourRaw with
      | error e => exact Or.inl ⟨_, rfl⟩
      | ok h =>
        cases hd : enrichTable d with
        | error e =>
          exact Or.inl ⟨"Error loading data: " ++ e, by simp [load_data, hd]⟩
        | ok de =>
          cases hh : enrichTable h with
          | error e =>
            exact Or.inl ⟨"Error loading data: " ++ e,
              by simp [load_data, hd, hh]⟩
          | ok he => exact Or.inr ⟨de, he, by simp [load_data, hd, hh]⟩
  · intro sd S W msg hmsg
    simp [session, hmsg]

/-- Witness for C3: an unreadable daily source makes the loader return
the sentinel pair with a message, and the session stops with that
message. -/
theorem load_data_all_or_nothing_witness :
    session (Except.error "file not found") (Except.ok [rawEx])
      [⟨2011, 1, 1⟩, ⟨2011, 1, 2⟩] ["Spring"] ["Clear/Partly Cloudy"] =
      Outcome.loadError "Error loading data: file not found" :=
  (load_data_all_or_nothing (Except.error "file not found")
      (Except.ok [rawEx])).2
    [⟨2011, 1, 1⟩, ⟨2011, 1, 2⟩] ["Spring"] ["Clear/Partly Cloudy"]
    "Error loading data: file not found" (by decide)

/-- Claim C4: with a successful load and a two-element date selection, if
either filtered table is empty the session ends in the no-matching-data
terminal state and nothing is rendered. -/
theorem empty_filter_terminal (dayRaw hourRaw : Except String (List RawRow))
    (s e : Date) (S W : List String) (de he : List ERow)
    (hload : load_data dayRaw hourRaw = (some de, some he, none))
    (hemp : filtered_day de s e S W = [] ∨ filtered_hour he s e S W = []) :
    session dayRaw hourRaw [s, e] S W = Outcome.noMatchingData ∧
    ∀ fd fh, session dayRaw hourRaw [s, e] S W ≠ Outcome.rendered fd fh := by
  have hsess : session dayRaw hourRaw [s, e] S W = Outcome.noMatchingData := by
    rcases hemp with h | h <;> simp [session, hload, h]
  exact ⟨hsess, fun fd fh hc => by rw [hsess] at hc; exact Outcome.noConfusion hc⟩

/-- Witness for C4 on the spec's scenario: the range
[2011-01-02, 2011-01-03] against tables holding only 2011-01-01 gives an
empty filter result and the no-matching-data state. -/
theorem empty_filter_terminal_witness :
    session (Except.ok [rawEx]) (Except.ok [rawEx])
      [⟨2011, 1, 2⟩, ⟨2011, 1, 3⟩] ["Spring"] ["Clear/Partly Cloudy"] =
      Outcome.noMatchingData :=
  (empty_filter_terminal (Except.ok [rawEx]) (Except.ok [rawEx])
      ⟨2011, 1, 2⟩ ⟨2011, 1, 3⟩ ["Spring"] ["Clear/Partly Cloudy"]
      [eRowEx] [eRowEx] (by decide) (Or.inl (by decide))).1

/-- Counterexample to C9 as stated: an inverted date interval
([2011-01-03, 2011-01-01]) is not rejected — the session applies the
filter and reaches the no-matching-data state instead of signalling an
invalid-range error. -/
theorem inverted_range_not_rejected :
    session (Except.ok [rawEx]) (Except.ok [rawEx])
      [⟨2011, 1, 3⟩, ⟨2011, 1, 1⟩] ["Spring"] ["Clear/Partly Cloudy"] =
      Outcome.noMatchingData ∧
    session (Except.ok [rawEx]) (Except.ok [rawEx])
      [⟨2011, 1, 3⟩, ⟨2011, 1, 1⟩] ["Spring"] ["Clear/Partly Cloudy"] ≠
      Outcome.invalidRange := by decide

/-- Claim C9 (amended): after a successful load, the date selection is
validated only for arity — a selection with other than two bounds stops
the interaction in the invalid-range state, and that state arises only
from the arity check, so an inverted two-bound interval is passed on to
the filter rather than rejected. -/
theorem date_arity_validation (dayRaw hourRaw : Except String (List RawRow))
    (sd : List Date) (S W : List String) (de he : List ERow)
    (hload : load_data dayRaw hourRaw = (some de, some he, none)) :
    (sd.length ≠ 2 → session dayRaw hourRaw sd S W = Outcome.invalidRange) ∧
    (session dayRaw hourRaw sd S W = Outcome.invalidRange → sd.length ≠ 2) := by
  constructor
  · intro hlen
    rcases sd with _ | ⟨a, _ | ⟨b, _ | ⟨c, rest⟩⟩⟩
    · simp [session, hload]
    · simp [session, hload]
    · exact absurd rfl hlen
    · simp [session, hload]
  · intro hsess hlen
    rcases sd with _ | ⟨a, _ | ⟨b, _ | ⟨c, rest⟩⟩⟩
    · simp at hlen
    · simp at hlen
    · have heq : session dayRaw hourRaw [a, b] S W =
          (if (filtered_day de a b S W).isEmpty ||
              (filtered_hour he a b S W).isEmpty then Outcome.noMatchingData
            else Outcome.rendered (filtered_day de a b S W)
              (filtered_hour he a b S W)) := by
        unfold session
        rw [hload]
      rw [heq] at hsess
      split at hsess <;> exact Outcome.noConfusion hsess
    · simp at hlen

/-- Witness for C9 (amended): a one-element date selection stops in the
invalid-range state. -/
theorem date_arity_validation_witness :
    session (Except.ok [rawEx]) (Except.ok [rawEx])
      [⟨2011, 1, 1⟩] ["Spring"] ["Clear/Partly Cloudy"] =
      Outcome.invalidRange :=
  (date_arity_validation (Except.ok [rawEx]) (Except.ok [rawEx])
      [⟨2011, 1, 1⟩] ["Spring"] ["Clear/Partly Cloudy"]
      [eRowEx] [eRowEx] (by decide)).1 (by decide)

/-- Claim C10: the empty check couples the two grains — whenever exactly
one of the two filtered tables is empty, the session still ends in the
no-matching-data state, and the non-empty sibling table is never
rendered. -/
theorem coupled_empty_check (dayRaw hourRaw : Except String (List RawRow))
    (s e : Date) (S W : List String) (de he : List ERow)
    (hload : load_data dayRaw hourRaw = (some de, some he, none))
    (hcouple :
      (filtered_day de s e S W ≠ [] ∧ filtered_hour he s e S W = []) ∨
      (filtered_day de s e S W = [] ∧ filtered_hour he s e S W ≠ [])) :
    session dayRaw hourRaw [s, e] S W = Outcome.noMatchingData ∧
    ∀ fd fh, session dayRaw hourRaw [s, e] S W ≠ Outcome.rendered fd fh := by
  have hsess : session dayRaw hourRaw [s, e] S W = Outcome.noMatchingData := by
    rcases hcouple with ⟨_, h⟩ | ⟨h, _⟩ <;> simp [session, hload, h]
  exact ⟨hsess, fun fd fh hc => by rw [hsess] at hc; exact Outcome.noConfusion hc⟩

/-- Witness for C10: the daily table has a matching row while the hourly
table is empty, yet the session ends in the no-matching-data state. -/
theorem coupled_empty_check_witness :
    session (Except.ok [rawEx]) (Except.ok [])
      [⟨2011, 1, 1⟩, ⟨2011, 1, 2⟩] ["Spring"] ["Clear/Partly Cloudy"] =
      Outcome.noMatchingData :=
  (coupled_empty_check (Except.ok [rawEx]) (Except.ok [])
      ⟨2011, 1, 1⟩ ⟨2011, 1, 2⟩ ["Spring"] ["Clear/Partly Cloudy"]
      [eRowEx] [] (by decide) (Or.inl ⟨by decide, by decide⟩)).1

theorem groupMeanBy_mem {α : Type} [DecidableEq α] (key : ERow → α)
    (target : ERow → Rat) (T : List ERow) (p : α × Rat)
    (hp : p ∈ groupMeanBy key target T) :
    (∃ r ∈ T, key r = p.1) ∧
    p.2 * ((T.filter (fun r => decide (key r = p.1))).length : Rat) =
      ((T.filter (fun r => decide (key r = p.1))).map target).sum := by
  unfold groupMeanBy at hp
  rw [List.mem_map] at hp
  obtain ⟨k, hk, hpk⟩ := hp
  subst hpk
  rw [List.mem_dedup, List.mem_map] at hk
  obtain ⟨r, hr, hkr⟩ := hk
  have hmem : r ∈ T.filter (fun x => decide (key x = k)) := by
    rw [List.mem_filter]
    exact ⟨hr, by simp [hkr]⟩
  have hlen : (T.filter (fun x => decide (key x = k))).length ≠ 0 := by
    intro h0
    rw [List.length_eq_zero] at h0
    rw [h0] at hmem
    exact List.not_mem_nil r hmem
  have hcast : ((T.filter (fun x => decide (key x = k))).length : Rat) ≠ 0 := by
    exact_mod_cast hlen
  refine ⟨⟨r, hr, hkr⟩, ?_⟩
  simp only [List.length_map]
  exact div_mul_cancel₀ _ hcast

/-- Claim C7: the hourly group-mean has exactly one entry per distinct
hour present in the filtered rows (no duplicate keys, an entry for an
hour iff some row has that hour, hence never a key with zero rows), each
entry's value is the arithmetic mean of `cnt` over that hour's rows, and
on the scenario table {hour 5: counts 10, 20; hour 6: count 5} it yields
exactly {5 ↦ 15, 6 ↦ 5}. -/
theorem hourly_group_mean_spec (T : List ERow) :
    ((hourly T).map Prod.fst).Nodup ∧
    (∀ k, (∃ r ∈ T, r.hr = k) ↔ ∃ v, (k, v) ∈ hourly T) ∧
    (∀ p ∈ hourly T, (∃ r ∈ T, r.hr = p.1) ∧
      T.filter (fun r => decide (r.hr = p.1)) ≠ [] ∧
      p.2 * ((T.filter (fun r => decide (r.hr = p.1))).length : Rat) =
        ((T.filter (fun r => decide (r.hr = p.1))).map
          (fun r => (r.cnt : Rat))).sum) ∧
    hourly [hRow 5 10, hRow 5 20, hRow 6 5] = [(5, 15), (6, 5)] := by
  refine ⟨?_, fun k => ⟨fun hpres => ?_, fun hval => ?_⟩, fun p hp => ?_, ?_⟩
  · have hfst : (hourly T).map Prod.fst = (T.map (fun r => r.hr)).dedup := by
      unfold hourly groupMeanBy
      rw [List.map_map]
      exact List.map_id _
    rw [hfst]
    exact List.nodup_dedup _
  · obtain ⟨r, hr, hkr⟩ := hpres
    refine ⟨((T.filter (fun x => decide (x.hr = k))).map
        (fun x => (x.cnt : Rat))).sum /
      (((T.filter (fun x => decide (x.hr = k))).map
        (fun x => (x.cnt : Rat))).length : Rat), ?_⟩
    unfold hourly groupMeanBy
    rw [List.mem_map]
    refine ⟨k, ?_, rfl⟩
    rw [List.mem_dedup, List.mem_map]
    exact ⟨r, hr, hkr⟩
  · obtain ⟨v, hv⟩ := hval
    exact (groupMeanBy_mem (fun r => r.hr) (fun r => (r.cnt : Rat)) T (k, v) hv).1
  · obtain ⟨⟨r, hr, hkr⟩, hmean⟩ :=
      groupMeanBy_mem (fun r => r.hr) (fun r => (r.cnt : Rat)) T p hp
    have hmem : r ∈ T.filter (fun x => decide (x.hr = p.1)) := by
      rw [List.mem_filter]
      exact ⟨hr, by simp [hkr]⟩
    refine ⟨⟨r, hr, hkr⟩, fun h0 => ?_, hmean⟩
    rw [h0] at hmem
    exact List.not_mem_nil r hmem
  · simp [hourly, groupMeanBy, hRow]
    norm_num

/-- Witness for C7 on the scenario table: hour 5 is present, and the
entry (5, 15) of the hourly group-mean satisfies mean × count = sum
(15 × 2 = 10 + 20). -/
theorem hourly_group_mean_spec_witness :
    (∃ r ∈ [hRow 5 10, hRow 5 20, hRow 6 5], r.hr = 5) ∧
    (15 : Rat) * (([hRow 5 10, hRow 5 20, hRow 6 5].filter
        (fun r => decide (r.hr = 5))).length : Rat) =
      (([hRow 5 10, hRow 5 20, hRow 6 5].filter
        (fun r => decide (r.hr = 5))).map (fun r => (r.cnt : Rat))).sum := by
  have h := hourly_group_mean_spec [hRow 5 10, hRow 5 20, hRow 6 5]
  have hmem : ((5 : Nat), (15 : Rat)) ∈ hourly [hRow 5 10, hRow 5 20, hRow 6 5] := by
    rw [h.2.2.2]
    simp
  exact ⟨(h.2.2.1 (5, 15) hmem).1, (h.2.2.1 (5, 15) hmem).2.2⟩

end Dashboard
